import Mathlib

/-!
Shallow embedding of `src/plot.js` (an SVG scatter-plot generator).

Two layers are used:
* a JavaScript-value layer (`JSValue`) for the code that inspects runtime
  types and truthiness (`verifySettings`, `verifyData`, `verifyDataSet`);
* a typed layer (`PlotSettings`, `DataSeries`, rational arithmetic) for the
  geometry pipeline (`defineMaxAndMinValuesForData`, `createGraphFrame`,
  `createGraphPoints`, `createGraphAxisMarks`, `createGraphAxisGrid`,
  `createGraphAxisText`, `createGraphAxisLabel`, `newSVGScatterPlot`).

JavaScript numbers are modelled as rationals (the claims under study are
algebraic identities and counting facts, not floating-point rounding facts).
-/

namespace Plot

/-- Model of a JavaScript runtime value, covering the value shapes the
plot library actually inspects (numbers, strings, booleans, arrays,
`undefined`).  `NaN` is not modelled. -/
inductive JSValue where
  | vNum (q : ℚ)
  | vStr (s : String)
  | vBool (b : Bool)
  | vArr (xs : List JSValue)
  | vUndefined

/-- Model of the JavaScript `typeof` operator on the modelled values. -/
def typeOf : JSValue → String
  | .vNum _ => "number"
  | .vStr _ => "string"
  | .vBool _ => "boolean"
  | .vArr _ => "object"
  | .vUndefined => "undefined"

/-- Model of JavaScript falsiness: `0`, the empty string, `false` and
`undefined` are falsy; every array (object) is truthy. -/
def falsy : JSValue → Bool
  | .vNum q => decide (q = 0)
  | .vStr s => decide (s = "")
  | .vBool b => !b
  | .vArr _ => false
  | .vUndefined => true

/-- A JavaScript object restricted to string keys, as a key/value list. -/
abbrev JSObject := List (String × JSValue)

/-- Model of property lookup `o[k]`: the first binding of `k`, and
`undefined` when the key is absent. -/
def lookupJS (o : JSObject) (k : String) : JSValue :=
  match o.find? (fun kv => kv.1 == k) with
  | some kv => kv.2
  | none => .vUndefined

/-- The frozen `defaultSettings` constant of `src/plot.js`, at the
JavaScript-value layer, in source declaration order. -/
def defaultSettingsJS : JSObject :=
  [("font", .vStr "SourceSansPro-Regular"),
   ("fontSize", .vNum 16),
   ("width", .vNum 700),
   ("height", .vNum 560),
   ("legend", .vBool false),
   ("xLabel", .vStr "x axis"),
   ("yLabel", .vStr "y axis"),
   ("grid", .vBool false),
   ("xMax", .vNum 0),
   ("xMin", .vNum 0),
   ("yMax", .vNum 0),
   ("yMin", .vNum 0),
   ("pointSize", .vNum 2),
   ("xDecimalPlaces", .vNum 0),
   ("yDecimalPlaces", .vNum 0),
   ("graphAxisMarksInterval", .vNum 6),
   ("graphAxisMarksThickness", .vNum 2),
   ("graphFrameThickness", .vNum 2),
   ("graphFrameSetback", .vNum 4),
   ("biggerMarks", .vBool true),
   ("smallerMarks", .vBool false)]

/-- The `for (const keyValue in defaultSettings)` loop body of
`verifySettings`: for each default key, a falsy caller value is replaced by
the default, a truthy caller value of mismatching `typeof` throws
`Invalid settings!`, and a truthy type-matching caller value is kept. -/
def resolveKeys (settings : JSObject) : List (String × JSValue) → Except String JSObject
  | [] => .ok []
  | kd :: rest =>
    if falsy (lookupJS settings kd.1) then
      (resolveKeys settings rest).map (fun v => kd :: v)
    else if typeOf (lookupJS settings kd.1) ≠ typeOf kd.2 then
      .error "Invalid settings!"
    else
      (resolveKeys settings rest).map (fun v => (kd.1, lookupJS settings kd.1) :: v)

/-- Embedding of `verifySettings` (src/plot.js lines 98-111).  An absent
(`undefined`/`null`, hence falsy) settings argument yields the default
record; otherwise each default key is resolved by `resolveKeys`.  Keys of
the input that are not default keys are never consulted. -/
def verifySettings : Option JSObject → Except String JSObject
  | none => .ok defaultSettingsJS
  | some settings => resolveKeys settings defaultSettingsJS

/-- One input series at the JavaScript-value layer: the five properties
`verifyData` and the renderer read.  An absent property is `vUndefined`. -/
structure JSData where
  x : JSValue
  y : JSValue
  color : JSValue
  fill : JSValue
  pointSize : JSValue

/-- Model of JavaScript `.length`: arrays and strings have a length, other
values give `undefined` (`none`). -/
def jsLength : JSValue → Option ℕ
  | .vArr xs => some xs.length
  | .vStr s => some s.length
  | _ => none

/-- Model of the loose inequality `a.length != b.length`:
`undefined != undefined` is `false`; `undefined != n` is `true`. -/
def lengthNeq : Option ℕ → Option ℕ → Bool
  | none, none => false
  | some a, some b => a != b
  | _, _ => true

/-- Embedding of `verifyData` (src/plot.js lines 118-124).

The source condition is
`!data || !data.x || !data.y || !data.x instanceof Array || !data.y instanceof Array || data.x.length != data.y.length`.
By JavaScript operator precedence `!data.x instanceof Array` groups as
`(!data.x) instanceof Array`, and a boolean primitive is never an `Array`
instance, so the third and fourth disjuncts are constantly `false`; they are
embedded as the literal `false` below.

The source then mutates the argument object in place (`data.fill = false`,
`data.color = getRandomHexColor()`) and returns that same object, so the
returned record is the post-state of the caller's series object.  The
random color source is passed in as `freshColor`. -/
def verifyData (freshColor : String) : Option JSData → Except String JSData
  | none => .error "invalid data structure!"
  | some data =>
    if falsy data.x || falsy data.y || false || false
        || lengthNeq (jsLength data.x) (jsLength data.y) then
      .error "invalid data structure!"
    else
      let data1 := if falsy data.fill || typeOf data.fill ≠ "boolean" then
        { data with fill := .vBool false } else data
      let data2 := if falsy data1.color then
        { data1 with color := .vStr freshColor } else data1
      .ok data2

/-- The `for (const data of dataSet)` loop of `verifyDataSet`: each series
is validated in order; the color oracle `colors` is consumed one entry per
series whose `color` property is falsy (mirroring one `getRandomHexColor()`
call per such series). -/
def verifyDataSetGo (colors : List String) : List JSData → Except String (List JSData)
  | [] => .ok []
  | data :: rest =>
    match verifyData (colors.headD "#000000") (some data) with
    | .error e => .error e
    | .ok v =>
      let colors1 := if falsy data.color then colors.tail else colors
      match verifyDataSetGo colors1 rest with
      | .error e => .error e
      | .ok vs => .ok (v :: vs)

/-- Embedding of `verifyDataSet` (src/plot.js lines 131-140).  The guard
`!dataSet instanceof Array` has the same precedence slip as in `verifyData`
and never throws; for an absent data set the subsequent
`for (const data of dataSet)` itself throws a `TypeError`, embedded as the
error below.  Errors from `verifyData` are rethrown unchanged. -/
def verifyDataSet (colors : List String) : Option (List JSData) → Except String (List JSData)
  | none => .error "TypeError: dataSet is not iterable"
  | some dataSet => verifyDataSetGo colors dataSet

/-- The resolved plot settings at the typed layer: each field carries the
runtime type its default has in `defaultSettings` (numbers as rationals;
the loop bound `graphAxisMarksInterval` and the `toFixed` digit counts as
naturals, their value in every documented use). -/
structure PlotSettings where
  font : String
  fontSize : ℚ
  width : ℚ
  height : ℚ
  legend : Bool
  xLabel : String
  yLabel : String
  grid : Bool
  xMax : ℚ
  xMin : ℚ
  yMax : ℚ
  yMin : ℚ
  pointSize : ℚ
  xDecimalPlaces : ℕ
  yDecimalPlaces : ℕ
  graphAxisMarksInterval : ℕ
  graphAxisMarksThickness : ℚ
  graphFrameThickness : ℚ
  graphFrameSetback : ℚ
  biggerMarks : Bool
  smallerMarks : Bool
deriving DecidableEq

/-- The `defaultSettings` constant of `src/plot.js` at the typed layer. -/
def defaultSettings : PlotSettings :=
  { font := "SourceSansPro-Regular"
    fontSize := 16
    width := 700
    height := 560
    legend := false
    xLabel := "x axis"
    yLabel := "y axis"
    grid := false
    xMax := 0
    xMin := 0
    yMax := 0
    yMin := 0
    pointSize := 2
    xDecimalPlaces := 0
    yDecimalPlaces := 0
    graphAxisMarksInterval := 6
    graphAxisMarksThickness := 2
    graphFrameThickness := 2
    graphFrameSetback := 4
    biggerMarks := true
    smallerMarks := false }

/-- A validated series at the typed layer: numeric sequences, a resolved
color, a resolved fill flag, and the per-series point size where `none`
stands for a falsy `data.pointSize` (absent or `0`). -/
structure DataSeries where
  x : List ℚ
  y : List ℚ
  color : String
  fill : Bool
  pointSize : Option ℚ
deriving DecidableEq

/-- The running axis extent record of `defineMaxAndMinValuesForData`. -/
structure MaxAndMinValues where
  xMax : ℚ
  xMin : ℚ
  yMax : ℚ
  yMin : ℚ
deriving DecidableEq

/-- Body of the `for (const x of data.x)` loop of
`defineMaxAndMinValuesForData`: widen `xMax` then `xMin`. -/
def updX (v : MaxAndMinValues) (x : ℚ) : MaxAndMinValues :=
  let v1 := if x > v.xMax then { v with xMax := x } else v
  if x < v1.xMin then { v1 with xMin := x } else v1

/-- Body of the `for (const y of data.y)` loop of
`defineMaxAndMinValuesForData`: widen `yMax` then `yMin`. -/
def updY (v : MaxAndMinValues) (y : ℚ) : MaxAndMinValues :=
  let v1 := if y > v.yMax then { v with yMax := y } else v
  if y < v1.yMin then { v1 with yMin := y } else v1

/-- Body of the `for (const data of dataSet)` loop of
`defineMaxAndMinValuesForData`: scan the x values, then the y values. -/
def scanSeries (v : MaxAndMinValues) (d : DataSeries) : MaxAndMinValues :=
  d.y.foldl updY (d.x.foldl updX v)

/-- Embedding of `defineMaxAndMinValuesForData` (src/plot.js lines
148-168): the running extent is seeded from the settings' `xMax`, `xMin`,
`yMax`, `yMin` fields and then widened over every value of every series. -/
def defineMaxAndMinValuesForData (dataSet : List DataSeries)
    (verifiedSettings : PlotSettings) : MaxAndMinValues :=
  dataSet.foldl scanSeries
    { xMax := verifiedSettings.xMax
      xMin := verifiedSettings.xMin
      yMax := verifiedSettings.yMax
      yMin := verifiedSettings.yMin }

/-- An SVG `rect` element with the attributes the source sets. -/
structure RectElem where
  x : ℚ
  y : ℚ
  width : ℚ
  height : ℚ
  fill : String
  stroke : String
  strokeWidth : ℚ
deriving DecidableEq

/-- Result record of `createGraphFrame`: the frame rectangle plus the plot
rectangle geometry returned for downstream use. -/
structure GraphFrame where
  frame : RectElem
  graphX0 : ℚ
  graphY0 : ℚ
  graphHeight : ℚ
  graphWidth : ℚ
deriving DecidableEq

/-- Embedding of `createGraphFrame` (src/plot.js lines 176-198). -/
def createGraphFrame (width height graphFrameSetback graphFrameThickness : ℚ) :
    GraphFrame :=
  let setback := if height > width then height * graphFrameSetback / 100
    else 2 * width * graphFrameSetback / 100
  let graphX0 := 2 * setback
  let graphY0 := graphFrameThickness + setback
  let graphWidth := width - 2 * graphX0
  let graphHeight := height - 2 * graphY0
  { frame :=
      { x := graphX0, y := graphY0, width := graphWidth, height := graphHeight
        fill := "white", stroke := "black", strokeWidth := graphFrameThickness }
    graphX0 := graphX0
    graphY0 := graphY0
    graphHeight := graphHeight
    graphWidth := graphWidth }

/-- An SVG `circle` element with the attributes `createGraphPoints` sets. -/
structure CircleElem where
  cx : ℚ
  cy : ℚ
  r : ℚ
  fill : String
  stroke : String
  strokeWidth : ℚ
deriving DecidableEq

/-- Embedding of `createGraphPoints` (src/plot.js lines 211-238): one
circle per index `i < data.x.length`, mapped through the conversion
factors; the radius falls back to the settings' point size when the
per-series `pointSize` is falsy (`none`). -/
def createGraphPoints (pointSize : ℚ) (maxAndMinValues : MaxAndMinValues)
    (graphX0 graphY0 graphHeight graphWidth : ℚ) (data : DataSeries) :
    List CircleElem :=
  let xConversionFactor := graphWidth / (maxAndMinValues.xMax - maxAndMinValues.xMin)
  let yConversionFactor := graphHeight / (maxAndMinValues.yMax - maxAndMinValues.yMin)
  (List.range data.x.length).map fun i =>
    let fillColor := if data.fill then data.color else "white"
    let x := graphX0 + (data.x.getD i 0 - maxAndMinValues.xMin) * xConversionFactor
    let y := graphY0 - (data.y.getD i 0 - maxAndMinValues.yMax) * yConversionFactor
    { cx := x, cy := y
      r := match data.pointSize with
           | none => pointSize
           | some p => p
      fill := fillColor, stroke := data.color, strokeWidth := 2 }

/-- Model of JavaScript `Number.prototype.toFixed` on rationals: the value
rounded half away from zero at `dp` decimal digits, rendered with exactly
`dp` digits after the separator. -/
def toFixed (q : ℚ) (dp : ℕ) : String :=
  let signStr := if q < 0 then "-" else ""
  let scaled : ℤ := ⌊|q| * (10 : ℚ) ^ dp + 1 / 2⌋
  let base : ℤ := (10 : ℤ) ^ dp
  let ipart := scaled / base
  let fpart := scaled % base
  if dp = 0 then signStr ++ toString ipart
  else
    let fs := toString fpart
    let padded := String.mk (List.replicate (dp - fs.length) '0') ++ fs
    signStr ++ toString ipart ++ "." ++ padded

/-- Which of the two line elements of a loop iteration of
`createGraphAxisMarks` a mark is: the full-length (`bigger`) one or the
half-length (`smaller`) one. -/
inductive MarkKind where
  | bigger
  | smaller
deriving DecidableEq

/-- Boolean test for the full-length mark kind. -/
def MarkKind.isBigger : MarkKind → Bool
  | .bigger => true
  | .smaller => false

/-- Boolean test for the half-length mark kind. -/
def MarkKind.isSmaller : MarkKind → Bool
  | .bigger => false
  | .smaller => true

/-- An SVG `line` element of `createGraphAxisMarks`, tagged with the loop
branch (`bigger`/`smaller`) that constructed it. -/
structure Mark where
  kind : MarkKind
  x1 : ℚ
  x2 : ℚ
  y1 : ℚ
  y2 : ℚ
  stroke : String
  strokeWidth : ℚ
deriving DecidableEq

/-- The x-axis loop of `createGraphAxisMarks`: each iteration pushes a
bigger mark at `position` (length 10, on the bottom edge) and a smaller
mark at `position + graphWidth / axisMarksInterval / 2` (length 5), then
advances `position` by `graphWidth / axisMarksInterval`. -/
def xMarksLoop (graphY0 graphHeight graphWidth : ℚ) (n : ℕ) : ℚ → ℕ → List Mark
  | _, 0 => []
  | position, k + 1 =>
    { kind := .bigger, x1 := position, x2 := position
      y1 := graphY0 + graphHeight - 10, y2 := graphY0 + graphHeight
      stroke := "black", strokeWidth := 2 } ::
    { kind := .smaller
      x1 := position + graphWidth / (n : ℚ) / 2
      x2 := position + graphWidth / (n : ℚ) / 2
      y1 := graphY0 + graphHeight - 5, y2 := graphY0 + graphHeight
      stroke := "black", strokeWidth := 2 } ::
    xMarksLoop graphY0 graphHeight graphWidth n (position + graphWidth / (n : ℚ)) k

/-- The y-axis loop of `createGraphAxisMarks`: bigger marks on the left
edge of length 10, smaller marks of length 5 offset half an increment,
`position` advancing by `graphHeight / axisMarksInterval`. -/
def yMarksLoop (graphX0 graphHeight : ℚ) (n : ℕ) : ℚ → ℕ → List Mark
  | _, 0 => []
  | position, k + 1 =>
    { kind := .bigger, y1 := position, y2 := position
      x1 := graphX0, x2 := graphX0 + 10
      stroke := "black", strokeWidth := 2 } ::
    { kind := .smaller
      y1 := position + graphHeight / (n : ℚ) / 2
      y2 := position + graphHeight / (n : ℚ) / 2
      x1 := graphX0, x2 := graphX0 + 5
      stroke := "black", strokeWidth := 2 } ::
    yMarksLoop graphX0 graphHeight n (position + graphHeight / (n : ℚ)) k

/-- Embedding of `createGraphAxisMarks` (src/plot.js lines 246-298): the
x-axis loop starting at `graphX0` followed by the y-axis loop starting at
`graphY0`, each running `axisMarksInterval` times.  Note the function
receives no mark-visibility flags. -/
def createGraphAxisMarks (graphX0 graphY0 graphHeight graphWidth : ℚ)
    (axisMarksInterval : ℕ) : List Mark :=
  xMarksLoop graphY0 graphHeight graphWidth axisMarksInterval graphX0 axisMarksInterval ++
  yMarksLoop graphX0 graphHeight axisMarksInterval graphY0 axisMarksInterval

/-- A dashed SVG `line` element of `createGraphAxisGrid`. -/
structure GridLine where
  x1 : ℚ
  x2 : ℚ
  y1 : ℚ
  y2 : ℚ
  stroke : String
  strokeWidth : ℚ
  dash : ℚ
deriving DecidableEq

/-- Generic accumulator loop pushing one element per iteration and
advancing the position by `step`; used for the two grid loops. -/
def gridLoop (mk : ℚ → GridLine) (step : ℚ) : ℚ → ℕ → List GridLine
  | _, 0 => []
  | position, k + 1 => mk position :: gridLoop mk step (position + step) k

/-- Embedding of `createGraphAxisGrid` (src/plot.js lines 307-340). -/
def createGraphAxisGrid (graphX0 graphY0 graphHeight graphWidth : ℚ)
    (axisMarksInterval : ℕ) : List GridLine :=
  gridLoop
    (fun position =>
      { x1 := position, x2 := position, y1 := graphY0, y2 := graphY0 + graphHeight
        stroke := "gray", strokeWidth := 1, dash := 5 })
    (graphWidth / (axisMarksInterval : ℚ)) graphX0 axisMarksInterval ++
  gridLoop
    (fun position =>
      { y1 := position, y2 := position, x1 := graphX0, x2 := graphX0 + graphWidth
        stroke := "black", strokeWidth := 1, dash := 5 })
    (graphHeight / (axisMarksInterval : ℚ)) graphY0 axisMarksInterval

/-- An SVG `text` element of `createGraphAxisText`; `value` records the
loop's `number` accumulator whose `toFixed` rendering is `content`. -/
structure TextElem where
  x : ℚ
  y : ℚ
  anchor : String
  font : String
  fontSize : ℚ
  value : ℚ
  content : String
deriving DecidableEq

/-- The tick-text loop of `createGraphAxisText`: `position` and `number`
advance together, one text element per iteration. -/
def textLoop (mk : ℚ → ℚ → TextElem) (posStep numStep : ℚ) :
    ℚ → ℚ → ℕ → List TextElem
  | _, _, 0 => []
  | position, number, k + 1 =>
    mk position number ::
    textLoop mk posStep numStep (position + posStep) (number + numStep) k

/-- The x-axis phase of `createGraphAxisText`: `graphAxisMarksInterval + 1`
labels (the loop runs while `i <= interval`), starting at `xMin` and
stepping by `(xMax - xMin) / interval`. -/
def xAxisTexts (graphX0 graphY0 graphHeight graphWidth : ℚ)
    (verifiedSettings : PlotSettings) (maxAndMinValues : MaxAndMinValues) :
    List TextElem :=
  let n := verifiedSettings.graphAxisMarksInterval
  let xInterval := (maxAndMinValues.xMax - maxAndMinValues.xMin) / (n : ℚ)
  textLoop
    (fun position number =>
      { x := position
        y := graphY0 + graphHeight + verifiedSettings.fontSize * 2
        anchor := "middle", font := verifiedSettings.font
        fontSize := verifiedSettings.fontSize
        value := number
        content := toFixed number verifiedSettings.xDecimalPlaces })
    (graphWidth / (n : ℚ)) xInterval graphX0 maxAndMinValues.xMin (n + 1)

/-- The y-axis phase of `createGraphAxisText`: `graphAxisMarksInterval + 1`
labels starting at `yMax` and stepping by `-(yMax - yMin) / interval`. -/
def yAxisTexts (graphX0 graphY0 graphHeight graphWidth : ℚ)
    (verifiedSettings : PlotSettings) (maxAndMinValues : MaxAndMinValues) :
    List TextElem :=
  let n := verifiedSettings.graphAxisMarksInterval
  let yInterval := (maxAndMinValues.yMax - maxAndMinValues.yMin) / (n : ℚ)
  textLoop
    (fun position number =>
      { x := graphX0 - verifiedSettings.fontSize * 3
        y := position + verifiedSettings.fontSize / 2
        anchor := "middle", font := verifiedSettings.font
        fontSize := verifiedSettings.fontSize
        value := number
        content := toFixed number verifiedSettings.yDecimalPlaces })
    (graphHeight / (n : ℚ)) (-yInterval) graphY0 maxAndMinValues.yMax (n + 1)

/-- Embedding of `createGraphAxisText` (src/plot.js lines 350-385): the
x-axis labels followed by the y-axis labels. -/
def createGraphAxisText (graphX0 graphY0 graphHeight graphWidth : ℚ)
    (verifiedSettings : PlotSettings) (maxAndMinValues : MaxAndMinValues) :
    List TextElem :=
  xAxisTexts graphX0 graphY0 graphHeight graphWidth verifiedSettings maxAndMinValues ++
  yAxisTexts graphX0 graphY0 graphHeight graphWidth verifiedSettings maxAndMinValues

/-- An axis-title SVG `text` element of `createGraphAxisLabel`. -/
structure LabelElem where
  x : ℚ
  y : ℚ
  anchor : String
  bold : Bool
  font : String
  fontSize : ℚ
  transform : Option String
  content : String
deriving DecidableEq

/-- Embedding of `createGraphAxisLabel` (src/plot.js lines 395-425): the
centered x-axis title and the y-axis title rotated by -90 degrees about
its anchor point. -/
def createGraphAxisLabel (graphX0 graphY0 graphHeight graphWidth : ℚ)
    (verifiedSettings : PlotSettings) : List LabelElem :=
  let xX := graphX0 + graphWidth / 2
  let xY := 2 * graphY0 + graphHeight - verifiedSettings.fontSize / 2
  let yX := graphX0 - graphX0 / 2 - verifiedSettings.fontSize
  let yY := graphY0 + graphHeight / 2
  [{ x := xX, y := xY, anchor := "middle", bold := true
     font := verifiedSettings.font
     fontSize := verifiedSettings.fontSize * (120 / 100)
     transform := none, content := verifiedSettings.xLabel },
   { x := yX, y := yY, anchor := "middle", bold := true
     font := verifiedSettings.font
     fontSize := verifiedSettings.fontSize * (120 / 100)
     transform := some ("rotate(-90, " ++ toString yX ++ ", " ++ toString yY ++ ")")
     content := verifiedSettings.yLabel }]

/-- Numeric reading of a JavaScript value (a non-number reads as 0; the
composition only applies this to values whose type was already checked). -/
def qOf : JSValue → ℚ
  | .vNum q => q
  | _ => 0

/-- String reading of a JavaScript value. -/
def sOf : JSValue → String
  | .vStr s => s
  | _ => ""

/-- Boolean reading of a JavaScript value. -/
def bOf : JSValue → Bool
  | .vBool b => b
  | _ => false

/-- Element-wise numeric reading of a JavaScript array value. -/
def extractNums : JSValue → List ℚ
  | .vArr xs => xs.map qOf
  | _ => []

/-- Bridge from a settings object resolved by `verifySettings` (whose
values are guaranteed to type-match the defaults) to the typed settings
record.  The loop bound `graphAxisMarksInterval` becomes the number of
iterations of `for (let i = 0; i < interval; i++)`, i.e. the ceiling; the
`toFixed` digit counts are floored. -/
def extractSettings (o : JSObject) : PlotSettings :=
  { font := sOf (lookupJS o "font")
    fontSize := qOf (lookupJS o "fontSize")
    width := qOf (lookupJS o "width")
    height := qOf (lookupJS o "height")
    legend := bOf (lookupJS o "legend")
    xLabel := sOf (lookupJS o "xLabel")
    yLabel := sOf (lookupJS o "yLabel")
    grid := bOf (lookupJS o "grid")
    xMax := qOf (lookupJS o "xMax")
    xMin := qOf (lookupJS o "xMin")
    yMax := qOf (lookupJS o "yMax")
    yMin := qOf (lookupJS o "yMin")
    pointSize := qOf (lookupJS o "pointSize")
    xDecimalPlaces := (⌊qOf (lookupJS o "xDecimalPlaces")⌋).toNat
    yDecimalPlaces := (⌊qOf (lookupJS o "yDecimalPlaces")⌋).toNat
    graphAxisMarksInterval := (⌈qOf (lookupJS o "graphAxisMarksInterval")⌉).toNat
    graphAxisMarksThickness := qOf (lookupJS o "graphAxisMarksThickness")
    graphFrameThickness := qOf (lookupJS o "graphFrameThickness")
    graphFrameSetback := qOf (lookupJS o "graphFrameSetback")
    biggerMarks := bOf (lookupJS o "biggerMarks")
    smallerMarks := bOf (lookupJS o "smallerMarks") }

/-- Bridge from a series validated by `verifyData` to the typed series:
`pointSize` becomes `none` exactly when `data.pointSize` is falsy,
mirroring the `!data.pointSize ? pointSize : data.pointSize` read in
`createGraphPoints`. -/
def extractData (d : JSData) : DataSeries :=
  { x := extractNums d.x
    y := extractNums d.y
    color := sOf d.color
    fill := bOf d.fill
    pointSize := if falsy d.pointSize then none else some (qOf d.pointSize) }

/-- One primitive of the composed SVG document. -/
inductive SVGElem where
  | rect (r : RectElem)
  | markLine (m : Mark)
  | gridLine (g : GridLine)
  | point (c : CircleElem)
  | axisText (t : TextElem)
  | axisLabel (l : LabelElem)
deriving DecidableEq

/-- The composed SVG document: the `viewBox` dimensions and the child
elements in append order. -/
structure SVGDoc where
  viewBoxWidth : ℚ
  viewBoxHeight : ℚ
  elements : List SVGElem
deriving DecidableEq

/-- The `try` block of `newSVGScatterPlot` (src/plot.js lines 436-480):
resolve the settings, validate the data set, compute the extent, inflate
the canvas (`width + 6 * fontSize` by `height + 5 * fontSize`), then append
the frame, the axis marks, the grid when enabled, each series' points in
order, the tick texts and the axis titles.  Validation errors propagate
out of this block. -/
def newSVGScatterPlotCore (settings : Option JSObject)
    (dataSet : Option (List JSData)) (colors : List String) :
    Except String SVGDoc := do
  let verifiedSettingsObj ← verifySettings settings
  let verifiedDataSetJS ← verifyDataSet colors dataSet
  let verifiedSettings := extractSettings verifiedSettingsObj
  let verifiedDataSet := verifiedDataSetJS.map extractData
  let maxAndMinValues := defineMaxAndMinValuesForData verifiedDataSet verifiedSettings
  let width := verifiedSettings.width + 6 * verifiedSettings.fontSize
  let height := verifiedSettings.height + 5 * verifiedSettings.fontSize
  let g := createGraphFrame width height
    verifiedSettings.graphFrameSetback verifiedSettings.graphFrameThickness
  let marks := createGraphAxisMarks g.graphX0 g.graphY0 g.graphHeight g.graphWidth
    verifiedSettings.graphAxisMarksInterval
  let grids := if verifiedSettings.grid then
    createGraphAxisGrid g.graphX0 g.graphY0 g.graphHeight g.graphWidth
      verifiedSettings.graphAxisMarksInterval
    else []
  let points := (verifiedDataSet.map fun data =>
    createGraphPoints verifiedSettings.pointSize maxAndMinValues
      g.graphX0 g.graphY0 g.graphHeight g.graphWidth data).flatten
  let texts := createGraphAxisText g.graphX0 g.graphY0 g.graphHeight g.graphWidth
    verifiedSettings maxAndMinValues
  let labels := createGraphAxisLabel g.graphX0 g.graphY0 g.graphHeight g.graphWidth
    verifiedSettings
  pure
    { viewBoxWidth := width
      viewBoxHeight := height
      elements :=
        SVGElem.rect g.frame :: marks.map SVGElem.markLine ++
        grids.map SVGElem.gridLine ++ points.map SVGElem.point ++
        texts.map SVGElem.axisText ++ labels.map SVGElem.axisLabel }

/-- Embedding of the exported `newSVGScatterPlot` (src/plot.js lines
435-484).  The source wraps the whole pipeline in `try { ... } catch
(error) { console.log(error) }`: a raised error is caught and logged and
the function then returns `undefined`, so the caller receives `none`
instead of the error. -/
def newSVGScatterPlot (settings : Option JSObject)
    (dataSet : Option (List JSData)) (colors : List String) : Option SVGDoc :=
  (newSVGScatterPlotCore settings dataSet colors).toOption

/-- C2: for every resolved settings record, the frame layout is computed
from the inflated canvas `settings.width + 6 * fontSize` by
`settings.height + 5 * fontSize`, with
`setback = height * graphFrameSetback / 100` when `height > width` and
otherwise `2 * width * graphFrameSetback / 100`, plot origin
`x0 = 2 * setback`, `y0 = graphFrameThickness + setback`, plot width
`canvasWidth - 2 * x0` and plot height `canvasHeight - 2 * y0`. -/
theorem C2_frame_layout (s : PlotSettings) :
    let W := s.width + 6 * s.fontSize
    let H := s.height + 5 * s.fontSize
    let setback := if H > W then H * s.graphFrameSetback / 100
      else 2 * W * s.graphFrameSetback / 100
    let g := createGraphFrame W H s.graphFrameSetback s.graphFrameThickness
    g.graphX0 = 2 * setback ∧
    g.graphY0 = s.graphFrameThickness + setback ∧
    g.graphWidth = W - 2 * g.graphX0 ∧
    g.graphHeight = H - 2 * g.graphY0 := by
  refine ⟨rfl, rfl, rfl, rfl⟩

/-- C1: for every non-degenerate axis extent and every frame geometry,
`createGraphPoints` maps a data point `(x, y)` to pixel
`x0 + (x - xMin) * (plotWidth / (xMax - xMin))` and
`y0 - (y - yMax) * (plotHeight / (yMax - yMin))`; in particular
`(xMin, yMin)` lands on the pixel `(x0, y0 + plotHeight)` and
`(xMax, yMax)` on `(x0 + plotWidth, y0)`, the frame corners. -/
theorem C1_coordinate_map (m : MaxAndMinValues) (x0 y0 h w ps : ℚ)
    (c : String) (f : Bool) (p : Option ℚ) (data : DataSeries)
    (hx : m.xMax ≠ m.xMin) (hy : m.yMax ≠ m.yMin) :
    ((createGraphPoints ps m x0 y0 h w data).map fun pt => (pt.cx, pt.cy)) =
      ((List.range data.x.length).map fun i =>
        (x0 + (data.x.getD i 0 - m.xMin) * (w / (m.xMax - m.xMin)),
         y0 - (data.y.getD i 0 - m.yMax) * (h / (m.yMax - m.yMin)))) ∧
    ((createGraphPoints ps m x0 y0 h w ⟨[m.xMin], [m.yMin], c, f, p⟩).map
        fun pt => (pt.cx, pt.cy)) = [(x0, y0 + h)] ∧
    ((createGraphPoints ps m x0 y0 h w ⟨[m.xMax], [m.yMax], c, f, p⟩).map
        fun pt => (pt.cx, pt.cy)) = [(x0 + w, y0)] := by
  refine ⟨?_, ?_, ?_⟩
  · simp [createGraphPoints]
  · have hy2 : m.yMax - m.yMin ≠ 0 := sub_ne_zero.mpr hy
    have hr : List.range 1 = [0] := rfl
    simp [createGraphPoints, hr, Prod.ext_iff]
    field_simp
    ring
  · have hx2 : m.xMax - m.xMin ≠ 0 := sub_ne_zero.mpr hx
    have hr : List.range 1 = [0] := rfl
    simp [createGraphPoints, hr, Prod.ext_iff]
    field_simp

/-- C1 witness: the corner rule evaluated at a concrete non-degenerate
extent and frame. -/
theorem C1_coordinate_map_witness :
    ((createGraphPoints 2 ⟨10, 0, 10, 0⟩ 5 7 100 200 ⟨[0], [0], "red", false, none⟩).map
        fun pt => (pt.cx, pt.cy)) = [(5, 7 + 100)] := by
  have h := C1_coordinate_map ⟨10, 0, 10, 0⟩ 5 7 100 200 2 "red" false none
    ⟨[0], [0], "red", false, none⟩ (by norm_num) (by norm_num)
  exact h.2.1

/-- C6: a series whose `x` and `y` arrays have different lengths fails
validation with the `invalid data structure!` error. -/
theorem C6_length_mismatch (freshColor : String) (c f p : JSValue)
    (xs ys : List JSValue) (h : xs.length ≠ ys.length) :
    verifyData freshColor (some ⟨.vArr xs, .vArr ys, c, f, p⟩) =
      .error "invalid data structure!" := by
  simp [verifyData, falsy, jsLength, lengthNeq, bne_iff_ne, h]

/-- C6 witness: a one-point `x` against an empty `y`. -/
theorem C6_length_mismatch_witness :
    verifyData "#000000"
      (some ⟨.vArr [.vNum 1], .vArr [], .vUndefined, .vUndefined, .vUndefined⟩) =
      .error "invalid data structure!" :=
  C6_length_mismatch "#000000" .vUndefined .vUndefined .vUndefined
    [.vNum 1] [] (by decide)

/-- C7: the array-shape checks of `verifyData` are dead code (operator
precedence makes `!data.x instanceof Array` constantly false), so a series
whose `x` is a plain string of matching length, or whose arrays hold
non-numeric entries, is accepted — contradicting the claimed
`InvalidSeries` failure and the source's own `number []` JSDoc types. -/
theorem C7_dead_array_check :
    verifyData "#000000"
      (some ⟨.vStr "ab", .vArr [.vNum 1, .vNum 2], .vStr "red", .vBool true, .vUndefined⟩) =
      .ok ⟨.vStr "ab", .vArr [.vNum 1, .vNum 2], .vStr "red", .vBool true, .vUndefined⟩ ∧
    verifyData "#000000"
      (some ⟨.vArr [.vStr "a"], .vArr [.vNum 1], .vStr "red", .vBool true, .vUndefined⟩) =
      .ok ⟨.vArr [.vStr "a"], .vArr [.vNum 1], .vStr "red", .vBool true, .vUndefined⟩ := by
  constructor <;> rfl

/-- C9 counterexample: on a type-mismatched settings object the pipeline
raises `Invalid settings!`, but the exported entry point catches it and
returns `undefined` (`none`) — the failure is logged, not reported to the
caller. -/
theorem C9_error_swallowed :
    newSVGScatterPlotCore (some [("width", .vStr "wide")]) (some []) [] =
      .error "Invalid settings!" ∧
    newSVGScatterPlot (some [("width", .vStr "wide")]) (some []) [] = none := by
  constructor <;> rfl

/-- C9 (amended): every validation failure aborts the render with no
partial document — the entry point returns `none` exactly when the inner
pipeline raised an error — but the error itself is swallowed by the
`catch` block instead of being propagated. -/
theorem C9_amended_abort_without_propagation (settings : Option JSObject)
    (dataSet : Option (List JSData)) (colors : List String) :
    newSVGScatterPlot settings dataSet colors =
      (newSVGScatterPlotCore settings dataSet colors).toOption ∧
    (newSVGScatterPlot settings dataSet colors = none ↔
      (newSVGScatterPlotCore settings dataSet colors).isOk = false) := by
  refine ⟨rfl, ?_⟩
  cases h : newSVGScatterPlotCore settings dataSet colors <;>
    simp [newSVGScatterPlot, h, Except.toOption, Except.isOk, Except.toBool]

/-- C10 counterexample: `verifyData` writes the fallback `fill` and the
generated `color` into the caller's series object (the source assigns to
`data` and returns that same reference), so a series passed without
`color`/`fill` is mutated in place: its post-state differs from its
pre-state, and a second render of the same object observes the first
render's color. -/
theorem C10_series_mutated :
    verifyData "#0f0f0f"
      (some ⟨.vArr [.vNum 0], .vArr [.vNum 0], .vUndefined, .vUndefined, .vUndefined⟩) =
      .ok ⟨.vArr [.vNum 0], .vArr [.vNum 0], .vStr "#0f0f0f", .vBool false, .vUndefined⟩ ∧
    (⟨.vArr [.vNum 0], .vArr [.vNum 0], .vStr "#0f0f0f", .vBool false, .vUndefined⟩ : JSData) ≠
      ⟨.vArr [.vNum 0], .vArr [.vNum 0], .vUndefined, .vUndefined, .vUndefined⟩ :=
  ⟨rfl, fun h => JSValue.noConfusion (congrArg JSData.color h)⟩

/-- Statement abbreviation for C5: the resolved binding for one default
key — the default when the caller's value is falsy, else the caller's
value. -/
def settled (settings : JSObject) (kd : String × JSValue) : String × JSValue :=
  if falsy (lookupJS settings kd.1) then kd else (kd.1, lookupJS settings kd.1)

/-- Statement abbreviation for C5: a default key passes the type check
when the caller's value is falsy or its `typeof` matches the default's. -/
def typeOK (settings : JSObject) (kd : String × JSValue) : Bool :=
  falsy (lookupJS settings kd.1) || (typeOf (lookupJS settings kd.1) == typeOf kd.2)

/-- Characterization of the `verifySettings` key loop: it succeeds exactly
when every default key passes the type check, and then resolves each key
by `settled`; otherwise it raises `Invalid settings!`. -/
theorem resolveKeys_char (settings : JSObject) :
    ∀ defs : List (String × JSValue),
      resolveKeys settings defs =
        if defs.all (typeOK settings) then .ok (defs.map (settled settings))
        else .error "Invalid settings!"
  | [] => by simp [resolveKeys]
  | kd :: rest => by
    rw [resolveKeys, resolveKeys_char settings rest]
    by_cases hf : falsy (lookupJS settings kd.1)
    · simp only [hf, if_true, List.all_cons, typeOK, hf, Bool.true_or]
      by_cases hall : rest.all (typeOK settings) <;>
        simp [hall, settled, hf, Except.map]
    · simp only [hf, if_false, Bool.false_eq_true]
      by_cases ht : typeOf (lookupJS settings kd.1) = typeOf kd.2
      · simp only [ht, ne_eq, not_true_eq_false, if_false]
        have hok : typeOK settings kd = true := by
          simp [typeOK, hf, ht]
        by_cases hall : rest.all (typeOK settings) <;>
          simp [hall, hok, settled, hf, Except.map]
      · have hko : typeOK settings kd = false := by
          simp [typeOK, hf, ht]
        simp [ht, hko]

/-- Pointwise fact for C5: whenever a default key passes the type check,
its resolved value type-matches the default's type. -/
theorem settled_type_matches (settings : JSObject) (kd : String × JSValue) :
    (!typeOK settings kd || (typeOf (settled settings kd).2 == typeOf kd.2)) = true := by
  unfold typeOK settled
  by_cases hf : falsy (lookupJS settings kd.1)
  · simp [hf]
  · simp only [hf, if_false, Bool.false_or]
    exact Bool.not_or_self _

/-- C5: `verifySettings` of an absent settings object is the default
record; of a present object it succeeds exactly when every default key is
falsy-or-type-matching in the input, resolving falsy values to the
defaults and keeping truthy values, and raising `Invalid settings!`
otherwise; the output carries exactly the default keys (unrecognized input
keys are ignored) and every resolved value type-matches its default. -/
theorem C5_settings_resolution :
    verifySettings none = .ok defaultSettingsJS ∧
    (∀ settings : JSObject,
      verifySettings (some settings) =
        if defaultSettingsJS.all (typeOK settings)
        then .ok (defaultSettingsJS.map (settled settings))
        else .error "Invalid settings!") ∧
    (∀ settings : JSObject,
      (defaultSettingsJS.map (settled settings)).map Prod.fst =
        defaultSettingsJS.map Prod.fst) ∧
    (∀ settings : JSObject,
      defaultSettingsJS.all
        (fun kd => !typeOK settings kd ||
          (typeOf (settled settings kd).2 == typeOf kd.2)) = true) := by
  refine ⟨rfl, ?_, ?_, ?_⟩
  · intro settings
    exact resolveKeys_char settings defaultSettingsJS
  · intro settings
    rw [List.map_map]
    refine List.map_congr_left fun kd _ => ?_
    unfold settled
    by_cases hf : falsy (lookupJS settings kd.1) <;> simp [hf]
  · intro settings
    rw [List.all_eq_true]
    intro kd _
    exact settled_type_matches settings kd

/-- `updX` leaves the y bounds alone and only widens the x bounds. -/
theorem updX_basic (v : MaxAndMinValues) (x : ℚ) :
    (updX v x).yMax = v.yMax ∧ (updX v x).yMin = v.yMin ∧
    (updX v x).xMin ≤ v.xMin ∧ v.xMax ≤ (updX v x).xMax ∧
    (updX v x).xMin ≤ x ∧ x ≤ (updX v x).xMax := by
  unfold updX
  by_cases h1 : x > v.xMax <;> by_cases h2 : x < v.xMin <;>
    simp only [h1, h2, ite_true, ite_false] <;>
    refine ⟨?_, ?_, ?_, ?_, ?_, ?_⟩ <;> first | trivial | linarith

/-- `updY` leaves the x bounds alone and only widens the y bounds. -/
theorem updY_basic (v : MaxAndMinValues) (y : ℚ) :
    (updY v y).xMax = v.xMax ∧ (updY v y).xMin = v.xMin ∧
    (updY v y).yMin ≤ v.yMin ∧ v.yMax ≤ (updY v y).yMax ∧
    (updY v y).yMin ≤ y ∧ y ≤ (updY v y).yMax := by
  unfold updY
  by_cases h1 : y > v.yMax <;> by_cases h2 : y < v.yMin <;>
    simp only [h1, h2, ite_true, ite_false] <;>
    refine ⟨?_, ?_, ?_, ?_, ?_, ?_⟩ <;> first | trivial | linarith

/-- The x scan leaves the y bounds alone and only widens the x bounds. -/
theorem foldX_basic : ∀ (xs : List ℚ) (v : MaxAndMinValues),
    (xs.foldl updX v).yMax = v.yMax ∧ (xs.foldl updX v).yMin = v.yMin ∧
    (xs.foldl updX v).xMin ≤ v.xMin ∧ v.xMax ≤ (xs.foldl updX v).xMax
  | [], v => ⟨rfl, rfl, le_refl _, le_refl _⟩
  | x :: xs, v => by
    have h1 := updX_basic v x
    have h2 := foldX_basic xs (updX v x)
    refine ⟨?_, ?_, ?_, ?_⟩ <;> simp only [List.foldl_cons]
    · rw [h2.1, h1.1]
    · rw [h2.2.1, h1.2.1]
    · exact le_trans h2.2.2.1 h1.2.2.1
    · exact le_trans h1.2.2.2.1 h2.2.2.2

/-- The y scan leaves the x bounds alone and only widens the y bounds. -/
theorem foldY_basic : ∀ (ys : List ℚ) (v : MaxAndMinValues),
    (ys.foldl updY v).xMax = v.xMax ∧ (ys.foldl updY v).xMin = v.xMin ∧
    (ys.foldl updY v).yMin ≤ v.yMin ∧ v.yMax ≤ (ys.foldl updY v).yMax
  | [], v => ⟨rfl, rfl, le_refl _, le_refl _⟩
  | y :: ys, v => by
    have h1 := updY_basic v y
    have h2 := foldY_basic ys (updY v y)
    refine ⟨?_, ?_, ?_, ?_⟩ <;> simp only [List.foldl_cons]
    · rw [h2.1, h1.1]
    · rw [h2.2.1, h1.2.1]
    · exact le_trans h2.2.2.1 h1.2.2.1
    · exact le_trans h1.2.2.2.1 h2.2.2.2

/-- Every value visited by the x scan ends up inside the scanned bounds. -/
theorem foldX_mem : ∀ (xs : List ℚ) (v : MaxAndMinValues) (x : ℚ), x ∈ xs →
    (xs.foldl updX v).xMin ≤ x ∧ x ≤ (xs.foldl updX v).xMax
  | a :: xs, v, x, hm => by
    simp only [List.foldl_cons]
    rcases List.mem_cons.mp hm with h | h
    · subst h
      have h1 := updX_basic v x
      have h2 := foldX_basic xs (updX v x)
      exact ⟨le_trans h2.2.2.1 h1.2.2.2.2.1, le_trans h1.2.2.2.2.2 h2.2.2.2⟩
    · exact foldX_mem xs (updX v a) x h

/-- Every value visited by the y scan ends up inside the scanned bounds. -/
theorem foldY_mem : ∀ (ys : List ℚ) (v : MaxAndMinValues) (y : ℚ), y ∈ ys →
    (ys.foldl updY v).yMin ≤ y ∧ y ≤ (ys.foldl updY v).yMax
  | a :: ys, v, y, hm => by
    simp only [List.foldl_cons]
    rcases List.mem_cons.mp hm with h | h
    · subst h
      have h1 := updY_basic v y
      have h2 := foldY_basic ys (updY v y)
      exact ⟨le_trans h2.2.2.1 h1.2.2.2.2.1, le_trans h1.2.2.2.2.2 h2.2.2.2⟩
    · exact foldY_mem ys (updY v a) y h

/-- The y scan keeps `yMin` untouched when no scanned value undercuts it. -/
theorem foldY_keep : ∀ (ys : List ℚ) (v : MaxAndMinValues),
    (∀ y ∈ ys, v.yMin ≤ y) → (ys.foldl updY v).yMin = v.yMin
  | [], v, _ => rfl
  | y :: ys, v, hall => by
    simp only [List.foldl_cons]
    have hy : v.yMin ≤ y := hall y (List.mem_cons_self _ _)
    have hmin : (updY v y).yMin = v.yMin := by
      unfold updY
      by_cases h1 : y > v.yMax <;> simp [h1, not_lt.mpr hy]
    rw [foldY_keep ys (updY v y) (fun z hz => hmin ▸ hall z (List.mem_cons_of_mem _ hz)), hmin]

/-- One series scan only widens all four bounds. -/
theorem scanSeries_mono (v : MaxAndMinValues) (d : DataSeries) :
    (scanSeries v d).xMin ≤ v.xMin ∧ v.xMax ≤ (scanSeries v d).xMax ∧
    (scanSeries v d).yMin ≤ v.yMin ∧ v.yMax ≤ (scanSeries v d).yMax := by
  unfold scanSeries
  have hx := foldX_basic d.x v
  have hy := foldY_basic d.y (d.x.foldl updX v)
  exact ⟨hy.2.1 ▸ hx.2.2.1, hy.1 ▸ hx.2.2.2,
    le_trans hy.2.2.1 (hx.2.1 ▸ le_refl _), hx.1 ▸ hy.2.2.2⟩

/-- The data-set scan only widens all four bounds. -/
theorem foldData_mono : ∀ (ds : List DataSeries) (v : MaxAndMinValues),
    (ds.foldl scanSeries v).xMin ≤ v.xMin ∧ v.xMax ≤ (ds.foldl scanSeries v).xMax ∧
    (ds.foldl scanSeries v).yMin ≤ v.yMin ∧ v.yMax ≤ (ds.foldl scanSeries v).yMax
  | [], v => ⟨le_refl _, le_refl _, le_refl _, le_refl _⟩
  | d :: ds, v => by
    have h1 := scanSeries_mono v d
    have h2 := foldData_mono ds (scanSeries v d)
    simp only [List.foldl_cons]
    exact ⟨le_trans h2.1 h1.1, le_trans h1.2.1 h2.2.1,
      le_trans h2.2.2.1 h1.2.2.1, le_trans h1.2.2.2 h2.2.2.2⟩

/-- Every value of a scanned series ends up inside the final bounds. -/
theorem foldData_mem : ∀ (ds : List DataSeries) (v : MaxAndMinValues)
    (d : DataSeries), d ∈ ds →
    (∀ x ∈ d.x, (ds.foldl scanSeries v).xMin ≤ x ∧ x ≤ (ds.foldl scanSeries v).xMax) ∧
    (∀ y ∈ d.y, (ds.foldl scanSeries v).yMin ≤ y ∧ y ≤ (ds.foldl scanSeries v).yMax)
  | a :: ds, v, d, hm => by
    simp only [List.foldl_cons]
    rcases List.mem_cons.mp hm with h | h
    · subst h
      have hrest := foldData_mono ds (scanSeries v d)
      constructor
      · intro x hx
        have hIn := foldX_mem d.x v x hx
        have hy := foldY_basic d.y (d.x.foldl updX v)
        have hIn2 : (scanSeries v d).xMin ≤ x ∧ x ≤ (scanSeries v d).xMax := by
          unfold scanSeries
          exact ⟨hy.2.1 ▸ hIn.1, hy.1 ▸ hIn.2⟩
        exact ⟨le_trans hrest.1 hIn2.1, le_trans hIn2.2 hrest.2.1⟩
      · intro y hy
        have hIn : (scanSeries v d).yMin ≤ y ∧ y ≤ (scanSeries v d).yMax :=
          foldY_mem d.y (d.x.foldl updX v) y hy
        exact ⟨le_trans hrest.2.2.1 hIn.1, le_trans hIn.2 hrest.2.2.2⟩
    · exact foldData_mem ds (scanSeries v a) d h

/-- The data-set scan keeps `yMin` untouched when no y value undercuts it. -/
theorem foldData_yMin_keep : ∀ (ds : List DataSeries) (v : MaxAndMinValues),
    (∀ d ∈ ds, ∀ y ∈ d.y, v.yMin ≤ y) → (ds.foldl scanSeries v).yMin = v.yMin
  | [], _, _ => rfl
  | d :: ds, v, hall => by
    simp only [List.foldl_cons]
    have hxf := foldX_basic d.x v
    have hkeep : (scanSeries v d).yMin = v.yMin := by
      unfold scanSeries
      rw [foldY_keep d.y (d.x.foldl updX v)
        (fun y hy => hxf.2.1 ▸ hall d (List.mem_cons_self _ _) y hy), hxf.2.1]
    rw [foldData_yMin_keep ds (scanSeries v d)
      (fun e he y hy => hkeep ▸ hall e (List.mem_cons_of_mem _ he) y hy), hkeep]

/-- C4: the range calculator seeds the running extent from the settings'
`xMin`/`xMax`/`yMin`/`yMax` and only widens it: the final extent contains
every seed value and every data value, and an explicit `yMin = -5`
override survives unchanged when all series y values are nonnegative. -/
theorem C4_extent_seeds_and_widens (dataSet : List DataSeries) (s : PlotSettings) :
    (defineMaxAndMinValuesForData dataSet s).xMin ≤ s.xMin ∧
    s.xMax ≤ (defineMaxAndMinValuesForData dataSet s).xMax ∧
    (defineMaxAndMinValuesForData dataSet s).yMin ≤ s.yMin ∧
    s.yMax ≤ (defineMaxAndMinValuesForData dataSet s).yMax ∧
    (∀ d ∈ dataSet,
      (∀ x ∈ d.x, (defineMaxAndMinValuesForData dataSet s).xMin ≤ x ∧
        x ≤ (defineMaxAndMinValuesForData dataSet s).xMax) ∧
      (∀ y ∈ d.y, (defineMaxAndMinValuesForData dataSet s).yMin ≤ y ∧
        y ≤ (defineMaxAndMinValuesForData dataSet s).yMax)) ∧
    (s.yMin = -5 → (∀ d ∈ dataSet, ∀ y ∈ d.y, (0 : ℚ) ≤ y) →
      (defineMaxAndMinValuesForData dataSet s).yMin = -5) := by
  unfold defineMaxAndMinValuesForData
  have hmono := foldData_mono dataSet ⟨s.xMax, s.xMin, s.yMax, s.yMin⟩
  refine ⟨hmono.1, hmono.2.1, hmono.2.2.1, hmono.2.2.2, ?_, ?_⟩
  · intro d hd
    exact foldData_mem dataSet ⟨s.xMax, s.xMin, s.yMax, s.yMin⟩ d hd
  · intro hseed hpos
    have : (∀ d ∈ dataSet, ∀ y ∈ d.y,
        (MaxAndMinValues.mk s.xMax s.xMin s.yMax s.yMin).yMin ≤ y) := by
      intro d hd y hy
      simp only [hseed]
      linarith [hpos d hd y hy]
    rw [foldData_yMin_keep dataSet _ this]
    exact hseed

/-- Closed form of a position-accumulating loop: the element built at
iteration `i` sees position `pos + i * step`. -/
theorem range_map_shift {α : Type} (f : ℚ → α) (step : ℚ) (k : ℕ) (pos : ℚ) :
    ((List.range (k + 1)).map fun i : ℕ => f (pos + (i : ℚ) * step)) =
      f pos :: ((List.range k).map fun i : ℕ => f (pos + step + (i : ℚ) * step)) := by
  rw [List.range_succ_eq_map, List.map_cons, List.map_map]
  congr 1
  · norm_num
  · refine List.map_congr_left fun i _ => ?_
    simp only [Function.comp_apply]
    congr 1
    push_cast
    ring

/-- Closed form of the two-accumulator text loop step. -/
theorem range_map_shift2 {α : Type} (f : ℚ → ℚ → α) (ps ns : ℚ) (k : ℕ)
    (pos num : ℚ) :
    ((List.range (k + 1)).map fun i : ℕ => f (pos + (i : ℚ) * ps) (num + (i : ℚ) * ns)) =
      f pos num ::
        ((List.range k).map fun i : ℕ =>
          f (pos + ps + (i : ℚ) * ps) (num + ns + (i : ℚ) * ns)) := by
  rw [List.range_succ_eq_map, List.map_cons, List.map_map]
  congr 1
  · norm_num
  · refine List.map_congr_left fun i _ => ?_
    simp only [Function.comp_apply]
    congr 1 <;> push_cast <;> ring

/-- The bigger marks of the x-axis loop, in iteration order: one per
iteration, at `pos + i * (w / n)`. -/
theorem xMarksLoop_filter_bigger (y0 h w : ℚ) (n : ℕ) : ∀ (k : ℕ) (pos : ℚ),
    ((xMarksLoop y0 h w n pos k).filter fun mk => mk.kind.isBigger) =
      ((List.range k).map fun i : ℕ =>
        { kind := .bigger, x1 := pos + (i : ℚ) * (w / (n : ℚ)),
          x2 := pos + (i : ℚ) * (w / (n : ℚ)),
          y1 := y0 + h - 10, y2 := y0 + h, stroke := "black", strokeWidth := 2 })
  | 0, pos => by simp [xMarksLoop]
  | k + 1, pos => by
    rw [xMarksLoop]
    rw [List.filter_cons_of_pos (by rfl), List.filter_cons_of_neg (by exact Bool.false_ne_true)]
    rw [xMarksLoop_filter_bigger y0 h w n k (pos + w / (n : ℚ))]
    exact (range_map_shift
      (fun t =>
        ({ kind := .bigger, x1 := t, x2 := t, y1 := y0 + h - 10,
           y2 := y0 + h, stroke := "black", strokeWidth := 2 } : Mark))
      (w / (n : ℚ)) k pos).symm

/-- The smaller marks of the x-axis loop, in iteration order: one per
iteration, at `pos + i * (w / n) + w / n / 2`. -/
theorem xMarksLoop_filter_smaller (y0 h w : ℚ) (n : ℕ) : ∀ (k : ℕ) (pos : ℚ),
    ((xMarksLoop y0 h w n pos k).filter fun mk => mk.kind.isSmaller) =
      ((List.range k).map fun i : ℕ =>
        { kind := .smaller,
          x1 := pos + (i : ℚ) * (w / (n : ℚ)) + w / (n : ℚ) / 2,
          x2 := pos + (i : ℚ) * (w / (n : ℚ)) + w / (n : ℚ) / 2,
          y1 := y0 + h - 5, y2 := y0 + h, stroke := "black", strokeWidth := 2 })
  | 0, pos => by simp [xMarksLoop]
  | k + 1, pos => by
    rw [xMarksLoop]
    rw [List.filter_cons_of_neg (by exact Bool.false_ne_true), List.filter_cons_of_pos (by rfl)]
    rw [xMarksLoop_filter_smaller y0 h w n k (pos + w / (n : ℚ))]
    exact (range_map_shift
      (fun t =>
        ({ kind := .smaller, x1 := t + w / (n : ℚ) / 2,
           x2 := t + w / (n : ℚ) / 2,
           y1 := y0 + h - 5, y2 := y0 + h, stroke := "black", strokeWidth := 2 } : Mark))
      (w / (n : ℚ)) k pos).symm

/-- The bigger marks of the y-axis loop, in iteration order: one per
iteration, at `pos + i * (h / n)`. -/
theorem yMarksLoop_filter_bigger (x0 h : ℚ) (n : ℕ) : ∀ (k : ℕ) (pos : ℚ),
    ((yMarksLoop x0 h n pos k).filter fun mk => mk.kind.isBigger) =
      ((List.range k).map fun i : ℕ =>
        { kind := .bigger, x1 := x0, x2 := x0 + 10,
          y1 := pos + (i : ℚ) * (h / (n : ℚ)), y2 := pos + (i : ℚ) * (h / (n : ℚ)),
          stroke := "black", strokeWidth := 2 })
  | 0, pos => by simp [yMarksLoop]
  | k + 1, pos => by
    rw [yMarksLoop]
    rw [List.filter_cons_of_pos (by rfl), List.filter_cons_of_neg (by exact Bool.false_ne_true)]
    rw [yMarksLoop_filter_bigger x0 h n k (pos + h / (n : ℚ))]
    exact (range_map_shift
      (fun t =>
        ({ kind := .bigger, x1 := x0, x2 := x0 + 10, y1 := t, y2 := t,
           stroke := "black", strokeWidth := 2 } : Mark))
      (h / (n : ℚ)) k pos).symm

/-- The smaller marks of the y-axis loop, in iteration order: one per
iteration, at `pos + i * (h / n) + h / n / 2`. -/
theorem yMarksLoop_filter_smaller (x0 h : ℚ) (n : ℕ) : ∀ (k : ℕ) (pos : ℚ),
    ((yMarksLoop x0 h n pos k).filter fun mk => mk.kind.isSmaller) =
      ((List.range k).map fun i : ℕ =>
        { kind := .smaller, x1 := x0, x2 := x0 + 5,
          y1 := pos + (i : ℚ) * (h / (n : ℚ)) + h / (n : ℚ) / 2,
          y2 := pos + (i : ℚ) * (h / (n : ℚ)) + h / (n : ℚ) / 2,
          stroke := "black", strokeWidth := 2 })
  | 0, pos => by simp [yMarksLoop]
  | k + 1, pos => by
    rw [yMarksLoop]
    rw [List.filter_cons_of_neg (by exact Bool.false_ne_true), List.filter_cons_of_pos (by rfl)]
    rw [yMarksLoop_filter_smaller x0 h n k (pos + h / (n : ℚ))]
    exact (range_map_shift
      (fun t =>
        ({ kind := .smaller, x1 := x0, x2 := x0 + 5,
           y1 := t + h / (n : ℚ) / 2, y2 := t + h / (n : ℚ) / 2,
           stroke := "black", strokeWidth := 2 } : Mark))
      (h / (n : ℚ)) k pos).symm

/-- Closed form of the text loop: the element built at iteration `i` sees
position `pos + i * ps` and number `num + i * ns`. -/
theorem textLoop_eq (mk : ℚ → ℚ → TextElem) (ps ns : ℚ) :
    ∀ (k : ℕ) (pos num : ℚ),
      textLoop mk ps ns pos num k =
        ((List.range k).map fun i : ℕ => mk (pos + (i : ℚ) * ps) (num + (i : ℚ) * ns))
  | 0, pos, num => by simp [textLoop]
  | k + 1, pos, num => by
    rw [textLoop, textLoop_eq mk ps ns k (pos + ps) (num + ns),
      range_map_shift2 mk ps ns k pos num]

/-- The last element of a closed-form loop output is the iterate at the
final index. -/
theorem range_map_getLast {α : Type} (f : ℕ → α) (k : ℕ) :
    ((List.range (k + 1)).map f).getLast? = some (f k) := by
  rw [List.range_succ, List.map_append]
  simp

/-- C3: for tick count `n = graphAxisMarksInterval` the decorator emits
exactly `n` bigger and `n` smaller marks per axis, evenly spaced at
`plotWidth / n` (x axis) and `plotHeight / n` (y axis) increments, and
`n + 1` tick labels per axis whose values are the equally spaced linear
interpolation samples, ascending from `xMin` to `xMax` on the x axis and
descending from `yMax` to `yMin` on the y axis, each rendered by `toFixed`
at the configured decimal-place count (so `n = 4` gives 4 + 4 marks and 5
labels per axis). -/
theorem C3_axis_marks_and_labels (x0 y0 h w : ℚ) (s : PlotSettings)
    (m : MaxAndMinValues) (n : ℕ) (hn : n = s.graphAxisMarksInterval) :
    createGraphAxisMarks x0 y0 h w n =
      xMarksLoop y0 h w n x0 n ++ yMarksLoop x0 h n y0 n ∧
    ((xMarksLoop y0 h w n x0 n).filter fun mk => mk.kind.isBigger).length = n ∧
    ((xMarksLoop y0 h w n x0 n).filter fun mk => mk.kind.isSmaller).length = n ∧
    ((yMarksLoop x0 h n y0 n).filter fun mk => mk.kind.isBigger).length = n ∧
    ((yMarksLoop x0 h n y0 n).filter fun mk => mk.kind.isSmaller).length = n ∧
    (((xMarksLoop y0 h w n x0 n).filter fun mk => mk.kind.isBigger).map
        fun mk => mk.x1) =
      ((List.range n).map fun i : ℕ => x0 + (i : ℚ) * (w / (n : ℚ))) ∧
    (((xMarksLoop y0 h w n x0 n).filter fun mk => mk.kind.isSmaller).map
        fun mk => mk.x1) =
      ((List.range n).map fun i : ℕ =>
        x0 + (i : ℚ) * (w / (n : ℚ)) + w / (n : ℚ) / 2) ∧
    (((yMarksLoop x0 h n y0 n).filter fun mk => mk.kind.isBigger).map
        fun mk => mk.y1) =
      ((List.range n).map fun i : ℕ => y0 + (i : ℚ) * (h / (n : ℚ))) ∧
    (((yMarksLoop x0 h n y0 n).filter fun mk => mk.kind.isSmaller).map
        fun mk => mk.y1) =
      ((List.range n).map fun i : ℕ =>
        y0 + (i : ℚ) * (h / (n : ℚ)) + h / (n : ℚ) / 2) ∧
    createGraphAxisText x0 y0 h w s m =
      xAxisTexts x0 y0 h w s m ++ yAxisTexts x0 y0 h w s m ∧
    (xAxisTexts x0 y0 h w s m).length = n + 1 ∧
    (yAxisTexts x0 y0 h w s m).length = n + 1 ∧
    ((xAxisTexts x0 y0 h w s m).map fun t => t.value) =
      ((List.range (n + 1)).map fun i : ℕ =>
        m.xMin + (i : ℚ) * ((m.xMax - m.xMin) / (n : ℚ))) ∧
    ((xAxisTexts x0 y0 h w s m).map fun t => t.content) =
      ((List.range (n + 1)).map fun i : ℕ =>
        toFixed (m.xMin + (i : ℚ) * ((m.xMax - m.xMin) / (n : ℚ))) s.xDecimalPlaces) ∧
    ((yAxisTexts x0 y0 h w s m).map fun t => t.value) =
      ((List.range (n + 1)).map fun i : ℕ =>
        m.yMax - (i : ℚ) * ((m.yMax - m.yMin) / (n : ℚ))) ∧
    ((yAxisTexts x0 y0 h w s m).map fun t => t.content) =
      ((List.range (n + 1)).map fun i : ℕ =>
        toFixed (m.yMax - (i : ℚ) * ((m.yMax - m.yMin) / (n : ℚ))) s.yDecimalPlaces) ∧
    (0 < n → (((xAxisTexts x0 y0 h w s m).map fun t => t.value).getLast? =
      some m.xMax)) ∧
    (0 < n → (((yAxisTexts x0 y0 h w s m).map fun t => t.value).getLast? =
      some m.yMin)) := by
  subst hn
  have hxv : ((xAxisTexts x0 y0 h w s m).map fun t => t.value) =
      ((List.range (s.graphAxisMarksInterval + 1)).map fun i : ℕ =>
        m.xMin + (i : ℚ) * ((m.xMax - m.xMin) / (s.graphAxisMarksInterval : ℚ))) := by
    simp only [xAxisTexts]
    rw [textLoop_eq, List.map_map]
    rfl
  have hyv : ((yAxisTexts x0 y0 h w s m).map fun t => t.value) =
      ((List.range (s.graphAxisMarksInterval + 1)).map fun i : ℕ =>
        m.yMax - (i : ℚ) * ((m.yMax - m.yMin) / (s.graphAxisMarksInterval : ℚ))) := by
    simp only [yAxisTexts]
    rw [textLoop_eq, List.map_map]
    refine List.map_congr_left fun i _ => ?_
    show m.yMax + (i : ℚ) *
      -((m.yMax - m.yMin) / (s.graphAxisMarksInterval : ℚ)) = _
    ring
  refine ⟨rfl, ?_, ?_, ?_, ?_, ?_, ?_, ?_, ?_, rfl, ?_, ?_, hxv, ?_, hyv, ?_, ?_, ?_⟩
  · rw [xMarksLoop_filter_bigger, List.length_map, List.length_range]
  · rw [xMarksLoop_filter_smaller, List.length_map, List.length_range]
  · rw [yMarksLoop_filter_bigger, List.length_map, List.length_range]
  · rw [yMarksLoop_filter_smaller, List.length_map, List.length_range]
  · rw [xMarksLoop_filter_bigger, List.map_map]
    rfl
  · rw [xMarksLoop_filter_smaller, List.map_map]
    rfl
  · rw [yMarksLoop_filter_bigger, List.map_map]
    rfl
  · rw [yMarksLoop_filter_smaller, List.map_map]
    rfl
  · simp only [xAxisTexts]
    rw [textLoop_eq, List.length_map, List.length_range]
  · simp only [yAxisTexts]
    rw [textLoop_eq, List.length_map, List.length_range]
  · simp only [xAxisTexts]
    rw [textLoop_eq, List.map_map]
    rfl
  · simp only [yAxisTexts]
    rw [textLoop_eq, List.map_map]
    refine List.map_congr_left fun i _ => ?_
    show toFixed (m.yMax + (i : ℚ) *
      -((m.yMax - m.yMin) / (s.graphAxisMarksInterval : ℚ))) s.yDecimalPlaces = _
    congr 1
    ring
  · intro hN
    rw [hxv, range_map_getLast]
    have hne : (s.graphAxisMarksInterval : ℚ) ≠ 0 := by
      exact_mod_cast hN.ne'
    congr 1
    field_simp
  · intro hN
    rw [hyv, range_map_getLast]
    have hne : (s.graphAxisMarksInterval : ℚ) ≠ 0 := by
      exact_mod_cast hN.ne'
    congr 1
    field_simp

/-- C3 witness: with `graphAxisMarksInterval = 4` there are 4 bigger and 4
smaller marks on the x axis, 5 x-axis labels, and the labels run up to the
extent's `xMax`. -/
theorem C3_axis_marks_and_labels_witness :
    ((xMarksLoop 0 120 240 4 0 4).filter fun mk => mk.kind.isBigger).length = 4 ∧
    ((xMarksLoop 0 120 240 4 0 4).filter fun mk => mk.kind.isSmaller).length = 4 ∧
    (xAxisTexts 0 0 120 240 { defaultSettings with graphAxisMarksInterval := 4 }
      ⟨10, 0, 10, 0⟩).length = 4 + 1 ∧
    (((xAxisTexts 0 0 120 240 { defaultSettings with graphAxisMarksInterval := 4 }
      ⟨10, 0, 10, 0⟩).map fun t => t.value).getLast? = some 10) := by
  have h := C3_axis_marks_and_labels 0 0 120 240
    { defaultSettings with graphAxisMarksInterval := 4 } ⟨10, 0, 10, 0⟩ 4 rfl
  obtain ⟨h1, h2, h3, h4, h5, h6, h7, h8, h9, h10, h11, h12, h13, h14, h15, h16,
    h17, h18⟩ := h
  exact ⟨h2, h3, h11, h17 (by norm_num)⟩

/-- C8: the mark-visibility flags are never consulted — `biggerMarks` is
`true` and `smallerMarks` is `false` in the defaults, yet for any frame
geometry the decorator called with the default tick count emits 12 smaller
marks (6 per axis); `createGraphAxisMarks` does not even receive the
flags, and `newSVGScatterPlot` appends its output unconditionally. -/
theorem C8_flags_not_consulted :
    defaultSettings.biggerMarks = true ∧
    defaultSettings.smallerMarks = false ∧
    ∀ x0 y0 h w : ℚ,
      ((createGraphAxisMarks x0 y0 h w defaultSettings.graphAxisMarksInterval).filter
        fun mk => mk.kind.isSmaller).length = 12 := by
  refine ⟨rfl, rfl, fun x0 y0 h w => ?_⟩
  show ((xMarksLoop y0 h w 6 x0 6 ++ yMarksLoop x0 h 6 y0 6).filter
    fun mk => mk.kind.isSmaller).length = 12
  rw [List.filter_append, List.length_append,
    xMarksLoop_filter_smaller y0 h w 6 6 x0, yMarksLoop_filter_smaller x0 h 6 6 y0]
  simp

/-- C10 (amended): a render keeps no cross-call cache, but `verifyData`
normalizes the caller's series object in place: a series with a truthy
`color` and a boolean `fill` comes back value-unchanged, while a series
passed without `color` and `fill` has `fill := false` and the freshly
generated color written into it, so a second render of that same object
observes the first render's color instead of the original input. -/
theorem C10_amended_in_place_normalization (freshColor : String)
    (d1 d2 : JSData) (b : Bool)
    (h1x : falsy d1.x = false) (h1y : falsy d1.y = false)
    (h1len : lengthNeq (jsLength d1.x) (jsLength d1.y) = false)
    (h1c : falsy d1.color = false) (h1f : d1.fill = .vBool b)
    (h2x : falsy d2.x = false) (h2y : falsy d2.y = false)
    (h2len : lengthNeq (jsLength d2.x) (jsLength d2.y) = false)
    (h2c : d2.color = .vUndefined) (h2f : d2.fill = .vUndefined) :
    verifyData freshColor (some d1) = .ok d1 ∧
    verifyData freshColor (some d2) =
      .ok { d2 with fill := .vBool false, color := .vStr freshColor } := by
  constructor
  · obtain ⟨x, y, c, f, p⟩ := d1
    dsimp only at h1x h1y h1len h1c h1f
    subst h1f
    cases b
    · simp [verifyData, h1x, h1y, h1len, h1c,
        show falsy (JSValue.vBool false) = true from rfl,
        show typeOf (JSValue.vBool false) = "boolean" from rfl]
    · simp [verifyData, h1x, h1y, h1len, h1c,
        show falsy (JSValue.vBool true) = false from rfl,
        show typeOf (JSValue.vBool true) = "boolean" from rfl]
  · obtain ⟨x, y, c, f, p⟩ := d2
    dsimp only at h2x h2y h2len h2c h2f
    subst h2c
    subst h2f
    simp [verifyData, h2x, h2y, h2len,
      show falsy JSValue.vUndefined = true from rfl,
      show typeOf JSValue.vUndefined = "undefined" from rfl]

/-- C10 amended witness: a fully explicit series is returned unchanged; a
series without `color`/`fill` comes back with the fallback fill and the
fresh color written in. -/
theorem C10_amended_in_place_normalization_witness :
    verifyData "#123456"
      (some ⟨.vArr [.vNum 1], .vArr [.vNum 2], .vStr "blue", .vBool true, .vUndefined⟩) =
      .ok ⟨.vArr [.vNum 1], .vArr [.vNum 2], .vStr "blue", .vBool true, .vUndefined⟩ ∧
    verifyData "#123456"
      (some ⟨.vArr [.vNum 1], .vArr [.vNum 2], .vUndefined, .vUndefined, .vUndefined⟩) =
      .ok ⟨.vArr [.vNum 1], .vArr [.vNum 2], .vStr "#123456", .vBool false, .vUndefined⟩ :=
  C10_amended_in_place_normalization "#123456"
    ⟨.vArr [.vNum 1], .vArr [.vNum 2], .vStr "blue", .vBool true, .vUndefined⟩
    ⟨.vArr [.vNum 1], .vArr [.vNum 2], .vUndefined, .vUndefined, .vUndefined⟩
    true rfl rfl rfl rfl rfl rfl rfl rfl rfl rfl

/-- C4 witness: the explicit `yMin = -5` seed survives a scan of a series
whose y values are all nonnegative. -/
theorem C4_extent_seeds_and_widens_witness :
    (defineMaxAndMinValuesForData [⟨[1], [3], "red", false, none⟩]
      { defaultSettings with yMin := -5 }).yMin = -5 := by
  have h := C4_extent_seeds_and_widens [⟨[1], [3], "red", false, none⟩]
    { defaultSettings with yMin := -5 }
  exact h.2.2.2.2.2 rfl (by decide)

end Plot
